import Mathlib

/-!
Verification development for the Goa cyber-patrol backend.

The definitions below are a shallow embedding, into Lean, of the Python
source files of the repository:

* `src/utils/keyword_checker.py` — keyword risk scorer / category resolver;
* `src/routes/hotels.py`        — hotel legitimacy matcher, hotel-check
                                  upsert and official-resort upload;
* `src/routes/ingestion.py`     — ingestion normalizer (Telegram batch);
* `src/routes/settings.py`      — keyword-rule settings updates.

Python strings are embedded as `String`, machine integers as `Int`/`Nat`
(Python ints are unbounded, nothing overflows here), fallible code as
`Except`, and module-level mutable state (database tables, settings
dicts, files on disk) as explicit state passed through the functions.
-/

/-! ### Python string primitives

`isPre n h` is `List.isPrefixOf` written out so every string operation in
the file reduces by `decide`.  `strIn needle hay` is Python
`needle in hay`: contiguous-substring containment; an empty needle is
contained in every string, as in Python. -/

def isPre : List Char → List Char → Bool
  | [], _ => true
  | _ :: _, [] => false
  | a :: as, b :: bs => a == b && isPre as bs

def strInAux (needle : List Char) : List Char → Bool
  | [] => needle.isEmpty
  | c :: t => isPre needle (c :: t) || strInAux needle t

def strIn (needle hay : String) : Bool :=
  strInAux needle.data hay.data

/-- Python `str.lower()`.  `Char.toLower` lowers ASCII letters only; no
keyword and no text considered in this development uses cased non-ASCII
letters.  (Written over `String.data` so that it reduces inside the
kernel.) -/

def pyLower (s : String) : String :=
  ⟨s.data.map Char.toLower⟩

/-- Python `min` on two ints. -/

def pyMin (a b : Int) : Int :=
  if a ≤ b then a else b

/-- Python `\s` (ASCII part: space, tab, newline, carriage return,
vertical tab, form feed).  Python `re` also accepts Unicode whitespace;
no text considered in this development contains any. -/

def pySpace (c : Char) : Bool :=
  c == ' ' || c == '\t' || c == '\n' || c == '\r' || c == '\x0b' || c == '\x0c'

def splitWsAcc : List Char → List Char → List String
  | [], acc => if acc.isEmpty then [] else [⟨acc.reverse⟩]
  | c :: t, acc =>
    if pySpace c then
      if acc.isEmpty then splitWsAcc t [] else ⟨acc.reverse⟩ :: splitWsAcc t []
    else splitWsAcc t (c :: acc)

/-- Python `str.split()` with no argument: split on whitespace runs and
drop empty pieces. -/

def pySplitWs (s : String) : List String :=
  splitWsAcc s.data []

/-! ### `src/utils/keyword_checker.py` -/

/-- Hardcoded scammy keywords (`SCAM_KEYWORDS`, keyword_checker.py
lines 5–11), in source order. -/

def SCAM_KEYWORDS : List String :=
  ["loan", "casino", "escort", "resort", "work from home", "earn daily",
   "gambling", "betting", "prostitute", "call girl", "massage", "dating",
   "fake", "fraud", "scam", "money back guarantee", "urgent", "limited time",
   "easy money", "get rich quick", "no investment", "lottery", "winner",
   "congratulations", "prize", "free money", "instant cash", "part time job"]

/-- `TAKEDOWN_RECOMMENDATIONS` (keyword_checker.py lines 14–20) as an
association list, in source order. -/

def TAKEDOWN_RECOMMENDATIONS : List (String × String) :=
  [("scam", "Report to Cyber Cell"),
   ("fake_hotel", "Report to Tourism Dept"),
   ("prostitution", "Escalate for legal action"),
   ("gambling", "Escalate for legal action"),
   ("general_suspicious", "Monitor and investigate further")]

/-- `dict.get(k, default)` on an association list. -/

def dictGetD (d : List (String × String)) (k dflt : String) : String :=
  ((d.find? (fun p => p.1 == k)).map (fun p => p.2)).getD dflt

/-- The loop of keyword_checker.py lines 33–35: keywords of
`SCAM_KEYWORDS`, in rule-set order, whose lowercasing occurs in the
lowercased text; each keyword appears at most once (`matched_keywords`).
`Char.toLower` lowers ASCII letters only, as no keyword and no text in
this development uses cased non-ASCII letters. -/

def matchedKeywords (message_text : String) : List String :=
  SCAM_KEYWORDS.filter (fun keyword => strIn (pyLower keyword) (pyLower message_text))

/-! The money pattern of keyword_checker.py line 52 is the regex
`(â‚ą\s*\d+|INR\s*\d+|\d+\s*rupees?|Rs\.?\s*\d+)` searched with
`re.IGNORECASE` (the first alternative is the literal three-character
sequence `â‚ą`, the bytes the source file actually contains for the
rupee sign).  A search hit exists iff some suffix of the lowercased text
starts with one of the four alternatives; each alternative's
quantifiers meet a character that can never continue them, so maximal
munch is equivalent to backtracking here. -/

def skipDigits : List Char → List Char
  | [] => []
  | c :: t => if c.isDigit then skipDigits t else c :: t

def skipWs : List Char → List Char
  | [] => []
  | c :: t => if pySpace c then skipWs t else c :: t

/-- `\s*\d+` — after any run of whitespace there is at least one digit. -/

def afterWsDigit (cs : List Char) : Bool :=
  match skipWs cs with
  | [] => false
  | c :: _ => c.isDigit

/-- `\.?` — an optional literal dot. -/

def dropDot : List Char → List Char
  | '.' :: t => t
  | t => t

/-- One alternative of the money regex matching at the head of the
(lowercased) character list. -/

def moneyAt (cs : List Char) : Bool :=
  (isPre ['â', '‚', 'ą'] cs && afterWsDigit (cs.drop 3)) ||
  (isPre ['i', 'n', 'r'] cs && afterWsDigit (cs.drop 3)) ||
  (match cs with
   | c :: t => c.isDigit && isPre ['r', 'u', 'p', 'e', 'e'] (skipWs (skipDigits t))
   | [] => false) ||
  (isPre ['r', 's'] cs && afterWsDigit (dropDot (cs.drop 2)))

def searchMoney : List Char → Bool
  | [] => false
  | c :: t => moneyAt (c :: t) || searchMoney t

/-- `re.search(money_pattern, message_text, re.IGNORECASE)` is not None
(keyword_checker.py line 53). -/

def containsMoneyPattern (message_text : String) : Bool :=
  searchMoney (pyLower message_text).data

/-- The category chain of keyword_checker.py lines 60–67. -/

def categorize (matched_keywords : List String) : String :=
  if (["escort", "prostitute", "call girl", "massage", "dating"]).any
      (fun word => matched_keywords.contains word) then "prostitution"
  else if (["casino", "gambling", "betting", "lottery"]).any
      (fun word => matched_keywords.contains word) then "gambling"
  else if (["resort", "fake"]).any
      (fun word => matched_keywords.contains word) then "fake_hotel"
  else "scam"

/-- The score arithmetic of keyword_checker.py lines 40–54: base score
from the match count (1 → 40, 2 → 70, else 85; the 0 case never reaches
this code), plus the capped money-pattern boost. -/

def riskScoreOf (keyword_count : Nat) (money : Bool) : Int :=
  let base : Int := if keyword_count = 1 then 40 else if keyword_count = 2 then 70 else 85
  if money then pyMin 90 (base + 20) else base

/-- `check_keywords` (keyword_checker.py lines 22–71):
returns `(risk_score, flagged_reason, takedown_recommendation)`. -/

def check_keywords (message_text : String) : Int × String × String :=
  let matched := matchedKeywords message_text
  if matched.isEmpty then (0, "No suspicious content detected", "")
  else
    let risk_score := riskScoreOf matched.length (containsMoneyPattern message_text)
    let flagged_reason := "Suspicious keywords detected: " ++ String.intercalate ", " matched
    let category := categorize matched
    (risk_score, flagged_reason,
      dictGetD TAKEDOWN_RECOMMENDATIONS category "Monitor and investigate further")

/-! ### Reference definitions written from the specification's words

These are deliberately written from the spec / claim text (not from the
Python), to be compared with the embedded code. -/

/-- Reference risk score, following the claim: each keyword of the rule
set is counted at most once by case-insensitive substring containment;
0 matches → 0, 1 → 40, 2 → 70, 3 or more → 85; a currency-amount
pattern adds 20, capped at 90. -/

def riskScoreRef (text : String) : Int :=
  let n := (SCAM_KEYWORDS.filter (fun keyword => strIn (pyLower keyword) (pyLower text))).length
  if n = 0 then 0
  else
    let base : Int := if n = 1 then 40 else if n = 2 then 70 else 85
    if containsMoneyPattern text then pyMin 90 (base + 20) else base

/-- The fixed priority order of category buckets, from the spec:
prostitution-indicative first, then gambling-indicative, then
fake-hotel-indicative. -/

def categoryBuckets : List (List String × String) :=
  [(["escort", "prostitute", "call girl", "massage", "dating"], "prostitution"),
   (["casino", "gambling", "betting", "lottery"], "gambling"),
   (["resort", "fake"], "fake_hotel")]

/-- Reference category resolution, following the claim: the buckets are
evaluated top-down and the FIRST bucket intersecting the matched set
wins; otherwise the default bucket `scam`. -/

def categorizeRef (matched : List String) : String :=
  match categoryBuckets.find? (fun b => b.1.any (fun w => matched.contains w)) with
  | some b => b.2
  | none => "scam"

/-- `check_keywords` as called from Python with a possibly-null
argument: `None.lower()` raises `AttributeError` (keyword_checker.py
line 29 calls `message_text.lower()` unguarded). -/

def check_keywords_py (message_text : Option String) : Except String (Int × String × String) :=
  match message_text with
  | none => Except.error "AttributeError: NoneType object has no attribute lower"
  | some s => Except.ok (check_keywords s)

/-! ### `src/routes/hotels.py` — hotel legitimacy matcher (lines 78–174)

The registry is the `name` column of `data/official_resorts.csv`, in
file order; `registry?` is `none` when the file does not exist.
`df['name'].str.contains(x, case=False, na=False)` treats `x` as a
regular expression; every name considered in this development is free
of regex metacharacters, for which the test is case-insensitive
substring containment (`na=False`: rows with a missing name never
match, i.e. malformed registry rows are skipped). -/

/-- The registry comparison of hotels.py lines 92–120, with a loaded
registry: returns `(status, confidence, notes)`. -/

def registryVerdict (registry : List String) (hotel_name : String) : String × String × String :=
  match registry.filter (fun n => strIn (pyLower hotel_name) (pyLower n)) with
  | exact0 :: _ =>
    ("✅ Official", "High", "Verified official resort: " ++ exact0)
  | [] =>
    let words := pySplitWs hotel_name
    let tokenHits :=
      ((words.filter (fun word => word.length > 3)).map
        (fun word => registry.filter (fun n => strIn (pyLower word) (pyLower n)))).flatten
    match tokenHits with
    | similar :: _ =>
      ("⚠️ Uncertain", "Medium",
        "Similar official resort found: " ++ similar ++ ". Manual verification recommended.")
    | [] =>
      ("❌ Fake", "High", "Not found in official resort database - potentially fraudulent")

/-- The full verdict of hotels.py lines 84–120, including the
registry-unavailable branch (lines 86–89). -/

def check_hotel_verdict (registry? : Option (List String)) (hotel_name : String) :
    String × String × String :=
  match registry? with
  | none => ("❌ Fake", "Low", "Cannot verify - Official resort database not available")
  | some registry => registryVerdict registry hotel_name

/-- One row of the `fake_hotels` table (models.py lines 67–74; the
`id` and `screenshot` columns play no part in the claims). -/

structure HotelRecord where
  claimed_name : String
  website_domain : Option String
  status : String
  notes : String
deriving DecidableEq

/-- The session object injected into every hotels.py handler is the
`AsyncSession` yielded by db.py's `get_db` (db.py lines 15–26:
`sessionmaker(engine, class_=AsyncSession)`), regardless of the
handler's `db: Session` annotation.  These are the public methods of
that class used or usable here; the legacy `query` method exists only
on the synchronous `Session` class and is NOT among them. -/

def asyncSessionMethods : List String :=
  ["add", "add_all", "begin", "close", "commit", "delete", "execute",
   "flush", "get", "merge", "refresh", "rollback", "scalar", "scalars", "stream"]

/-- The store write hotels.py lines 122–145 spell out: the first row
whose `claimed_name` equals the requested name (SQL `=`, exact
equality) has its status, notes and domain overwritten; otherwise a
new row is appended.  Never executed — see `check_hotel_legitimacy`. -/

def hotelUpsert : List HotelRecord → String → Option String → String → String → List HotelRecord
  | [], name, domain, status, notes => [⟨name, domain, status, notes⟩]
  | r :: rest, name, domain, status, notes =>
    if r.claimed_name == name then
      { r with status := status, notes := notes, website_domain := domain } :: rest
    else
      r :: hotelUpsert rest name domain status notes

/-- `check_hotel_legitimacy` (hotels.py lines 78–174): the verdict is
computed (lines 84–120), then line 123 evaluates
`db.query(FakeHotel)` — but the injected session is an `AsyncSession`,
which has no `query` attribute, so every request raises
`AttributeError` there; the generic handler (line 174) wraps it into
the 500 detail `"Error checking hotel: 'AsyncSession' object has no
attribute 'query'"` (apostrophes omitted in the embedding) and the
store is never touched.  Returns the response and the store after the
request. -/

def check_hotel_legitimacy (registry? : Option (List String)) (store : List HotelRecord)
    (hotel_name : String) (website_domain : Option String) :
    Except String (String × String × String) × List HotelRecord :=
  let v := check_hotel_verdict registry? hotel_name
  if asyncSessionMethods.contains "query" then
    -- lines 123–171 as written: upsert keyed by exact name, then the
    -- verdict is returned.  Unreachable with the session db.py provides.
    (Except.ok v, hotelUpsert store hotel_name website_domain v.1 v.2.2)
  else
    (Except.error "Error checking hotel: AsyncSession object has no attribute query", store)

/-- A sequence of legitimacy-check requests starting from an empty
store: each request leaves the store it found to the next. -/

def runChecks (registry? : Option (List String)) (checks : List (String × Option String)) :
    List HotelRecord :=
  checks.foldl (fun st c => (check_hotel_legitimacy registry? st c.1 c.2).2) []

/-! ### `src/routes/hotels.py` — `upload_official_resorts` (lines 220–274)

hotels.py binds at module scope only the names imported on lines 1–11
plus its own definitions; `datetime` is imported solely INSIDE
`get_hotel_statistics` (line 193, function scope).  The handler
`upload_official_resorts` nevertheless evaluates `datetime.now()` when
building the backup filename (line 235) and `datetime.utcnow()` in the
success response (line 267); an unbound name raises `NameError`, which
the generic `except Exception` arm (line 273) converts into the 500
detail `"Error uploading resort data: name 'datetime' is not defined"`
(apostrophes of the Python message omitted in the embedding). -/

/-- The names bound at module scope in hotels.py (imports of
lines 1–11 and the module's own top-level definitions). -/

def hotelsModuleScopeNames : List String :=
  ["APIRouter", "Depends", "HTTPException", "Query", "UploadFile", "File",
   "Session", "desc", "BaseModel", "Optional", "List", "pd", "os", "shutil",
   "get_db", "FakeHotel", "router", "HotelCheckRequest",
   "get_all_hotels", "check_hotel_legitimacy", "get_hotel_statistics",
   "upload_official_resorts"]

/-- Python `str.endswith`. -/

def pyEndsWith (s suf : String) : Bool :=
  isPre suf.data.reverse s.data.reverse

/-- The `data/` directory as seen by the resort-upload handler: the
current registry file content (if any) and the backup files written so
far. -/

structure DataDir where
  official_resorts : Option String
  backups : List String
deriving DecidableEq

/-- An uploaded file: its name, its raw content, and what pandas makes
of it (`parses`: `pd.read_csv` succeeds; `hasNameColumn`: `'name'` is
among the parsed columns). -/

structure CsvUpload where
  filename : String
  content : String
  parses : Bool
  hasNameColumn : Bool
deriving DecidableEq

/-- `upload_official_resorts` (hotels.py lines 220–274). -/

def upload_official_resorts (file : CsvUpload) (dir : DataDir) :
    Except String String × DataDir :=
  if ¬ pyEndsWith file.filename ".csv" then
    (Except.error "File must be a CSV file", dir)
  else
    match dir.official_resorts with
    | some prev =>
      if hotelsModuleScopeNames.contains "datetime" then
        -- lines 235–269 as written: timestamped backup of the previous
        -- snapshot, swap, validate, acknowledge.  Never reached: the
        -- branch guard is the unbound module-scope name `datetime`.
        let dir2 : DataDir :=
          { official_resorts := some file.content, backups := dir.backups ++ [prev] }
        if file.parses && file.hasNameColumn then
          (Except.ok "Official resort database updated successfully", dir2)
        else
          (Except.error "Invalid CSV format", dir2)
      else
        -- line 235 raises NameError before any backup or swap.
        (Except.error "Error uploading resort data: name datetime is not defined", dir)
    | none =>
      -- no previous file: the backup branch is skipped, the new file is
      -- written (lines 239–240) and validated (lines 243–258)…
      let dir2 : DataDir := { dir with official_resorts := some file.content }
      if file.parses && file.hasNameColumn then
        if hotelsModuleScopeNames.contains "datetime" then
          (Except.ok "Official resort database updated successfully", dir2)
        else
          -- …but the response construction (line 267) hits the same
          -- unbound name, after the swap already happened.
          (Except.error "Error uploading resort data: name datetime is not defined", dir2)
      else
        (Except.error "Invalid CSV format", dir2)

/-! ### `src/routes/ingestion.py` — `ingest_telegram_data` (lines 24–80) -/

/-- Python `s[:n]`. -/

def pyTake (s : String) (n : Nat) : String :=
  ⟨s.data.take n⟩

/-- One raw record fetched from a channel (the dict shape produced by
the Telegram fetcher; timestamps are opaque strings here). -/

structure TelegramMessage where
  platform : String
  message_text : String
  date : String
  author_id : String
  channel : Option String
deriving DecidableEq

/-- The attributes mapped on the `FlaggedPost` declarative class
(models.py lines 47–65): its columns and relationships.  SQLAlchemy's
declarative constructor accepts exactly these names as keyword
arguments and raises `TypeError` for any other. -/

def flaggedPostMappedAttrs : List String :=
  ["id", "platform_id", "user_id", "message_text", "date", "flagged_reason",
   "risk_score", "screenshot_path", "takedown_recommendation", "task_id",
   "platform_rel", "user_rel", "task_rel", "evidence", "alerts"]

/-- The keyword arguments of the `FlaggedPost(...)` call at
ingestion.py lines 46–54, in call order. -/

def ingestionFlaggedPostKwargs : List String :=
  ["platform", "message_text", "date", "flagged_reason", "risk_score",
   "author_id", "takedown_recommendation"]

/-- The first keyword argument the declarative constructor rejects, if
any (`platform` here: models.py maps `platform_id`/`platform_rel`, not
`platform`, and `user_id`/`user_rel`, not `author_id`). -/

def invalidFlaggedPostKwarg : Option String :=
  ingestionFlaggedPostKwargs.find? (fun k => !flaggedPostMappedAttrs.contains k)

/-- One row of the `flagged_posts` table, restricted to the mapped
columns the ingestion call actually supplies values for. -/

structure FlaggedPostRow where
  message_text : String
  date : String
  flagged_reason : String
  risk_score : Int
  takedown_recommendation : String
deriving DecidableEq

/-- One entry of the `flagged_posts` feedback list (lines 59–64). -/

structure SampleEntry where
  message_text : String
  risk_score : Int
  flagged_reason : String
  channel : String
deriving DecidableEq

/-- The `FlaggedPost(...)` construction of ingestion.py lines 46–54:
the declarative constructor raises `TypeError` at the first keyword
argument that is not a mapped attribute (`str` of the error is
`"'platform' is an invalid keyword argument for FlaggedPost"`,
apostrophes omitted in the embedding). -/

def mkFlaggedPost (m : TelegramMessage) : Except String FlaggedPostRow :=
  match invalidFlaggedPostKwarg with
  | some k => Except.error (k ++ " is an invalid keyword argument for FlaggedPost")
  | none =>
    let r := check_keywords m.message_text
    Except.ok ⟨m.message_text, m.date, r.2.1, r.1, r.2.2⟩

def mkSample (m : TelegramMessage) : SampleEntry :=
  let r := check_keywords m.message_text
  ⟨pyTake m.message_text 100 ++ "...", r.1, r.2.1, m.channel.getD "Unknown"⟩

/-- The per-message loop of ingestion.py lines 41–64: for each message
with positive risk score, a `FlaggedPost` is constructed (which
raises, aborting the whole request, whenever the constructor rejects a
keyword argument), added to the session and summarised; score-0
messages are skipped. -/

def processTelegram : List TelegramMessage → Except String (List FlaggedPostRow × List SampleEntry)
  | [] => Except.ok ([], [])
  | m :: rest =>
    if (check_keywords m.message_text).1 > 0 then
      match mkFlaggedPost m with
      | Except.error e => Except.error e
      | Except.ok row =>
        match processTelegram rest with
        | Except.error e => Except.error e
        | Except.ok (ps, ss) => Except.ok (row :: ps, mkSample m :: ss)
    else processTelegram rest

/-- The batch summary of ingestion.py lines 68–77 (request-echo fields
such as `channels_monitored` omitted). -/

structure IngestResponse where
  total_messages : Nat
  flagged_posts : Nat
  sample_flagged : List SampleEntry
deriving DecidableEq

/-- `ingest_telegram_data` (ingestion.py lines 24–80), given the
already-fetched messages: on success, the rows committed by
`await db.commit()` (line 66) and the returned batch summary; any
exception in the loop is wrapped by the generic handler (lines 79–80)
into a 500 and nothing is committed. -/

def ingest_telegram_data (messages : List TelegramMessage) :
    Except String (List FlaggedPostRow × IngestResponse) :=
  match processTelegram messages with
  | Except.error e => Except.error ("Error ingesting Telegram data: " ++ e)
  | Except.ok (ps, ss) => Except.ok (ps, ⟨messages.length, ps.length, ss.take 5⟩)

/-! ### `src/routes/settings.py` — keyword-rule settings (lines 42–167) -/

/-- One category's keyword rule configuration. -/

structure KeywordCategorySettings where
  keywords : List String
  risk_weight : Int
deriving DecidableEq

/-- The default `KEYWORD_SETTINGS` dict (settings.py lines 42–47), as
an insertion-ordered association list. -/

def KEYWORD_SETTINGS : List (String × KeywordCategorySettings) :=
  [("scam", ⟨["loan", "fraud", "scam", "get rich quick", "easy money"], 50⟩),
   ("gambling", ⟨["casino", "betting", "lottery", "gambling", "jackpot"], 60⟩),
   ("prostitution", ⟨["escort", "call girl", "massage", "dating service"], 70⟩),
   ("fake_hotel", ⟨["resort", "hotel", "booking", "accommodation"], 40⟩)]

/-- Python `d[k] = v` on an insertion-ordered dict with unique keys: an
existing key keeps its position and gets the new value; a new key is
appended. -/

def dictSetK (d : List (String × KeywordCategorySettings)) (k : String)
    (v : KeywordCategorySettings) : List (String × KeywordCategorySettings) :=
  if (d.find? (fun p => p.1 == k)).isSome then
    d.map (fun p => if p.1 == k then (k, v) else p)
  else
    d ++ [(k, v)]

/-- `update_keyword_settings` (settings.py lines 136–167): validation
first — out-of-range weight, then empty keyword list — each rejecting
with a 400 before any state is touched; only then is the category
entry replaced. -/

def update_keyword_settings (category : String) (keywords : List String) (risk_weight : Int)
    (settings : List (String × KeywordCategorySettings)) :
    Except String String × List (String × KeywordCategorySettings) :=
  if risk_weight < 0 ∨ risk_weight > 100 then
    (Except.error "Risk weight must be between 0 and 100", settings)
  else if keywords.isEmpty then
    (Except.error "Keywords list cannot be empty", settings)
  else
    (Except.ok ("Keyword settings updated for category: " ++ category),
     dictSetK settings category ⟨keywords, risk_weight⟩)

/-! ### Theorems and witnesses -/

example : check_keywords "nothing here" = (0, "No suspicious content detected", "") := by decide

example : (check_keywords "cheap loan offer").1 = 40 := by decide

example : (check_keywords "casino loan").1 = 70 := by decide

example : (check_keywords "casino loan betting").1 = 85 := by decide

example : (check_keywords "cheap loan Rs. 500").1 = 60 := by decide

example : (check_keywords "casino loan INR 500").1 = 90 := by decide

example : (check_keywords "win 500 rupees casino loan betting").1 = 90 := by decide

example : (check_keywords "casino loan").2.1 = "Suspicious keywords detected: loan, casino" := by decide

example : (check_keywords "escort casino").2.2 = "Escalate for legal action" := by decide

example : categorize ["escort", "casino"] = "prostitution" := by decide

/-! ### Theorems: the risk scorer (claims C1, C10, C4, C6, C8) -/

/-- The score arithmetic hits only 40/60/70/85/90 and stays below 90. -/

theorem riskScoreOf_mem (k : Nat) (m : Bool) :
    riskScoreOf k m ∈ ([40, 60, 70, 85, 90] : List Int) ∧ riskScoreOf k m ≤ 90 := by
  by_cases h1 : k = 1 <;> by_cases h2 : k = 2 <;> cases m <;>
    simp [riskScoreOf, h1, h2, pyMin]

/-- C1: for every input text, the risk score returned by
`check_keywords` equals the reference definition `riskScoreRef`: each
keyword counted at most once by case-insensitive substring containment,
0 matches → 0, 1 → 40, 2 → 70, 3+ → 85, and a currency-amount pattern
adds 20 to the base, capped at 90. -/

theorem check_keywords_risk_eq_ref : ∀ text : String,
    (check_keywords text).1 = riskScoreRef text := by
  intro text
  unfold check_keywords riskScoreRef matchedKeywords riskScoreOf
  cases h : SCAM_KEYWORDS.filter (fun keyword => strIn (pyLower keyword) (pyLower text)) with
  | nil => simp
  | cons a t => simp

/-- C10: the risk score is always one of 0, 40, 60, 70, 85, 90, and in
particular never exceeds 90. -/

theorem check_keywords_risk_range : ∀ text : String,
    (check_keywords text).1 ∈ ([0, 40, 60, 70, 85, 90] : List Int) ∧
    (check_keywords text).1 ≤ 90 := by
  intro text
  unfold check_keywords
  cases h : matchedKeywords text with
  | nil => simp
  | cons a t =>
    obtain ⟨hmem, hle⟩ := riskScoreOf_mem (a :: t).length (containsMoneyPattern text)
    simp only [List.isEmpty_cons, Bool.false_eq_true, if_false]
    refine ⟨?_, hle⟩
    simp only [List.mem_cons] at hmem ⊢
    tauto

/-- C4: the category resolved from a matched keyword set equals the
reference priority resolution (first bucket top-down wins:
prostitution, then gambling, then fake-hotel, default scam); in
particular a matched set hitting a prostitution bucket word resolves to
prostitution regardless of what else it hits. -/

theorem categorize_priority : ∀ matched : List String,
    categorize matched = categorizeRef matched ∧
    ((["escort", "prostitute", "call girl", "massage", "dating"]).any
        (fun word => matched.contains word) = true →
      categorize matched = "prostitution") := by
  intro matched
  simp only [categorize, categorizeRef, categoryBuckets, List.find?]
  cases h1 : (["escort", "prostitute", "call girl", "massage", "dating"]).any
      (fun word => matched.contains word) <;>
    cases h2 : (["casino", "gambling", "betting", "lottery"]).any
        (fun word => matched.contains word) <;>
      cases h3 : (["resort", "fake"]).any (fun word => matched.contains word) <;>
        simp_all

/-- C4 witness: a matched set containing both the prostitution keyword
`escort` and the gambling keyword `casino` resolves to prostitution. -/

theorem categorize_priority_witness :
    categorize ["escort", "casino"] = "prostitution" :=
  (categorize_priority ["escort", "casino"]).2 (by decide)

/-- C6: for a text with a non-empty matched set, the flagged reason is
exactly `"Suspicious keywords detected: "` followed by the matched
keywords joined with `", "`, and the matched keywords are listed in
rule-set order (an in-order sublist of `SCAM_KEYWORDS`). -/

theorem flagged_reason_format : ∀ text : String,
    matchedKeywords text ≠ [] →
    (check_keywords text).2.1 =
        "Suspicious keywords detected: " ++ String.intercalate ", " (matchedKeywords text) ∧
    (matchedKeywords text).Sublist SCAM_KEYWORDS := by
  intro text hne
  constructor
  · unfold check_keywords
    cases h : matchedKeywords text with
    | nil => exact absurd h hne
    | cons a t => simp
  · exact List.filter_sublist SCAM_KEYWORDS

/-- C6 witness: in `"casino loan"` the keywords occur in input order
casino-then-loan, yet the reason lists rule-set order loan-then-casino. -/

theorem flagged_reason_format_witness :
    (check_keywords "casino loan").2.1 =
        "Suspicious keywords detected: " ++
          String.intercalate ", " (matchedKeywords "casino loan") ∧
    (matchedKeywords "casino loan").Sublist SCAM_KEYWORDS :=
  flagged_reason_format "casino loan" (by decide)

/-- C8 counterexample: a null (`None`) message makes `check_keywords`
raise `AttributeError` (`None.lower()`), it does not return risk 0. -/

theorem check_keywords_none_raises :
    check_keywords_py none =
      Except.error "AttributeError: NoneType object has no attribute lower" := rfl

/-- C8 amended: empty text yields risk 0 with an empty matched set and
no error; the null case raises instead (see
`check_keywords_none_raises`). -/

theorem check_keywords_empty_ok :
    check_keywords_py (some "") = Except.ok (0, "No suspicious content detected", "") ∧
    matchedKeywords "" = [] := by
  constructor
  · rfl
  · decide

example : (registryVerdict ["Sunset Paradise Beach Resort"] "Sunset Paradise Resort").1
    = "⚠️ Uncertain" := by decide

example : (registryVerdict ["Blue Horizon Resort"] "Blue Lagoon").1 = "⚠️ Uncertain" := by decide

example : (registryVerdict ["Blue Horizon Resort"] "Starlight Getaway").1 = "❌ Fake" := by decide

example : (registryVerdict ["Goa Beach Resort"] "Beach Resort").1 = "✅ Official" := by decide

/-! ### Theorems: the hotel legitimacy matcher (claims C2, C3) -/

/-- C2 counterexample.  First: the spec's own example — claimed name
`"Sunset Paradise Resort"` against a registry containing
`"Sunset Paradise Beach Resort"` — does NOT hit the exact tier (the
claimed name is not a substring of the registry name because of the
interposed `"Beach "`, and the code never tests the reverse
containment): it falls to the token tier and yields Uncertain / Medium.
Second: even when the claimed name does contain a registry name
(`"Sunset Paradise Beach Resort Goa"`), the vice-versa direction the
claim asserts is absent from the code, which again yields
Uncertain / Medium. -/

theorem exact_tier_not_bidirectional :
    registryVerdict ["Sunset Paradise Beach Resort"] "Sunset Paradise Resort" =
      ("⚠️ Uncertain", "Medium",
        "Similar official resort found: Sunset Paradise Beach Resort. Manual verification recommended.") ∧
    strIn (pyLower "Sunset Paradise Beach Resort")
        (pyLower "Sunset Paradise Beach Resort Goa") = true ∧
    (registryVerdict ["Sunset Paradise Beach Resort"] "Sunset Paradise Beach Resort Goa").1 =
      "⚠️ Uncertain" := by
  refine ⟨by decide, by decide, by decide⟩

/-- C2 amended: the exact-substring tier succeeds exactly when some
registry name contains the claimed name as a case-insensitive
substring (one direction only); it then returns Official / High citing
the first such registry entry in registry order. -/

theorem exact_tier_containment (registry : List String) (hotel_name first : String)
    (rest : List String)
    (h : registry.filter (fun n => strIn (pyLower hotel_name) (pyLower n)) = first :: rest) :
    registryVerdict registry hotel_name =
      ("✅ Official", "High", "Verified official resort: " ++ first) := by
  unfold registryVerdict
  rw [h]

/-- C2 amended witness: the claimed name `"Paradise Beach"` is a
substring of the first registry entry below, so the exact tier fires
and cites it. -/

theorem exact_tier_containment_witness :
    registryVerdict ["Sunset Paradise Beach Resort", "Paradise Beach Huts"] "Paradise Beach" =
      ("✅ Official", "High", "Verified official resort: " ++ "Sunset Paradise Beach Resort") :=
  exact_tier_containment _ _ _ ["Paradise Beach Huts"] (by decide)

/-- C7 (code bug): replacing the registry while a previous dataset
exists NEVER creates a backup and never acknowledges success — the
handler dies on the unbound name `datetime` (line 235) before touching
any file, and the request returns the wrapped NameError with the
directory unchanged (no backup, old dataset still in place). -/

theorem upload_never_backs_up :
    upload_official_resorts
        ⟨"resorts.csv", "name,domain,category\nNew Resort,new.example,resort", true, true⟩
        ⟨some "name,domain,category\nOld Resort,old.example,resort", []⟩ =
      (Except.error "Error uploading resort data: name datetime is not defined",
       ⟨some "name,domain,category\nOld Resort,old.example,resort", []⟩) := rfl

/-- C9: updating the keyword rules with an empty keyword list or an
out-of-range risk weight is rejected with one of the two descriptive
errors and leaves the stored settings completely unchanged. -/

theorem update_keyword_settings_rejected (settings : List (String × KeywordCategorySettings))
    (category : String) (keywords : List String) (w : Int)
    (h : keywords = [] ∨ w < 0 ∨ w > 100) :
    (update_keyword_settings category keywords w settings).2 = settings ∧
    ((update_keyword_settings category keywords w settings).1 =
        Except.error "Risk weight must be between 0 and 100" ∨
     (update_keyword_settings category keywords w settings).1 =
        Except.error "Keywords list cannot be empty") := by
  unfold update_keyword_settings
  by_cases h1 : w < 0 ∨ w > 100
  · simp [h1]
  · rcases h with he | hw | hw
    · subst he; simp [h1]
    · exact absurd (Or.inl hw) h1
    · exact absurd (Or.inr hw) h1

/-- C9 witness: an empty keyword list for the `scam` category (with an
in-range weight) is rejected and the default settings are untouched. -/

theorem update_keyword_settings_rejected_witness :
    (update_keyword_settings "scam" [] 40 KEYWORD_SETTINGS).2 = KEYWORD_SETTINGS ∧
    ((update_keyword_settings "scam" [] 40 KEYWORD_SETTINGS).1 =
        Except.error "Risk weight must be between 0 and 100" ∨
     (update_keyword_settings "scam" [] 40 KEYWORD_SETTINGS).1 =
        Except.error "Keywords list cannot be empty") :=
  update_keyword_settings_rejected KEYWORD_SETTINGS "scam" [] 40 (Or.inl rfl)

/-- C3 (code bug): the store block of hotels.py lines 122–145 never
executes — `db.query(FakeHotel)` at line 123 raises `AttributeError`
on the `AsyncSession` injected by db.py's `get_db`, so every
`/hotels/check` request returns a 500 with the wrapped error and no
`HotelCheck` record is ever created, overwritten or duplicated: after
any sequence of checks the store is still empty. -/
theorem hotel_check_store_never_written :
    (check_hotel_legitimacy none [] "Goa Resort" none).1 =
      Except.error "Error checking hotel: AsyncSession object has no attribute query" ∧
    ∀ (registry? : Option (List String)) (checks : List (String × Option String)),
      runChecks registry? checks = [] := by
  constructor
  · rfl
  · intro registry? checks
    induction checks with
    | nil => rfl
    | cons c cs ih =>
      unfold runChecks at ih ⊢
      simp only [List.foldl_cons]
      exact ih

/-- The `FlaggedPost(...)` call raises for every message: its first
keyword argument `platform` is not a mapped attribute. -/
theorem mkFlaggedPost_raises (m : TelegramMessage) :
    mkFlaggedPost m =
      Except.error "platform is an invalid keyword argument for FlaggedPost" := rfl

/-- A batch that completes the loop has constructed no row and no
sample: any flagged message would have aborted it. -/
theorem processTelegram_ok_empty : ∀ (messages : List TelegramMessage)
    (ps : List FlaggedPostRow) (ss : List SampleEntry),
    processTelegram messages = Except.ok (ps, ss) → ps = [] ∧ ss = [] := by
  intro messages
  induction messages with
  | nil =>
    intro ps ss h
    simp only [processTelegram, Except.ok.injEq, Prod.mk.injEq] at h
    exact ⟨h.1.symm, h.2.symm⟩
  | cons m rest ih =>
    intro ps ss h
    by_cases hm : (check_keywords m.message_text).1 > 0
    · rw [processTelegram, if_pos hm, mkFlaggedPost_raises] at h
      exact absurd h (by simp)
    · rw [processTelegram, if_neg hm] at h
      exact ih ps ss h

/-- C5 (code bug): ingestion can never persist a flagged row — the
`FlaggedPost(platform=..., author_id=...)` call of ingestion.py
lines 46–54 raises `TypeError` (models.py maps `platform_id` and
`user_id`, not `platform` and `author_id`), so a batch containing any
message with positive score returns a 500 (shown here on the claim's
own 10-fetched / 3-flagged example, which persists nothing instead of
3 rows), and any batch that does return a summary has zero flagged
rows in it. -/
theorem ingest_telegram_typeerror :
    ingest_telegram_data
      [⟨"Telegram", "good morning goa", "t1", "u1", some "goatourism"⟩,
       ⟨"Telegram", "cheap loan offer", "t2", "u2", some "goajobs"⟩,
       ⟨"Telegram", "beach photos", "t3", "u3", some "goatourism"⟩,
       ⟨"Telegram", "visit the casino tonight", "t4", "u4", some "goabusiness"⟩,
       ⟨"Telegram", "weather update", "t5", "u5", some "goatourism"⟩,
       ⟨"Telegram", "bus schedule", "t6", "u6", some "goatourism"⟩,
       ⟨"Telegram", "earn daily INR 5000", "t7", "u7", some "goajobs"⟩,
       ⟨"Telegram", "new cafe opening", "t8", "u8", some "goabusiness"⟩,
       ⟨"Telegram", "traffic advisory", "t9", "u9", some "goatourism"⟩,
       ⟨"Telegram", "football results", "t10", "u10", some "goatourism"⟩] =
      Except.error
        "Error ingesting Telegram data: platform is an invalid keyword argument for FlaggedPost" ∧
    ∀ (messages : List TelegramMessage) (ps : List FlaggedPostRow) (resp : IngestResponse),
      ingest_telegram_data messages = Except.ok (ps, resp) →
        ps = [] ∧ resp.flagged_posts = 0 := by
  constructor
  · rfl
  · intro messages ps resp h
    unfold ingest_telegram_data at h
    cases hp : processTelegram messages with
    | error e => rw [hp] at h; exact absurd h (by simp)
    | ok pr =>
      obtain ⟨ps', ss⟩ := pr
      rw [hp] at h
      simp only [Except.ok.injEq, Prod.mk.injEq] at h
      obtain ⟨hps, hresp⟩ := h
      obtain ⟨hnil, -⟩ := processTelegram_ok_empty messages ps' ss hp
      subst hps hresp hnil
      exact ⟨rfl, rfl⟩

/-- C5 witness: a batch whose only message scores zero does return a
summary, and that summary carries zero flagged rows. -/
theorem ingest_telegram_typeerror_witness :
    ingest_telegram_data [⟨"Telegram", "good morning goa", "t1", "u1", some "goatourism"⟩] =
        Except.ok ([], ⟨1, 0, []⟩) ∧
    (([] : List FlaggedPostRow) = [] ∧ (⟨1, 0, []⟩ : IngestResponse).flagged_posts = 0) :=
  ⟨rfl, ingest_telegram_typeerror.2
      [⟨"Telegram", "good morning goa", "t1", "u1", some "goatourism"⟩] [] ⟨1, 0, []⟩ rfl⟩
